import Mathlib

/-!
Shallow embedding of the weather volatility service (src/src/weather.js,
second/current module version at lines 807-1836, plus the state store module
at lines 1837-2070). Temperatures are modelled as rationals; wall-clock
strings (local time, calendar date) are kept as opaque strings supplied by
the caller, standing for the values `getLocalTime` / `getLocalDate` produce.
-/

namespace WeatherVolatility

/-- One persisted per-location per-day state row.  Mirrors the JS object
produced by `loadLocationState` and mutated by `processLocation`:
`highTemp`, `lastTemp` are nullable numbers, `hasAlertedDrop` a boolean,
`sustainedHighCount` a number field that may be absent (`undefined`) on a
freshly created row, `lastHighAlertTemp` likewise, and `history` an
append-only list of (temp, time) pairs. -/
structure LocationDayState where
  highTemp : Option ℚ
  hasAlertedDrop : Bool
  lastTemp : Option ℚ
  sustainedHighCount : Option ℕ
  lastHighAlertTemp : Option ℚ
  history : List (ℚ × String)
deriving Repr, DecidableEq

/-- The default state object returned by `loadLocationState` when no file
exists for the (locationId, date) key (state module, lines 1880-1885):
`{ highTemp: null, hasAlertedDrop: false, lastTemp: null, history: [] }`.
Note it carries no `sustainedHighCount` field (modelled as `none`). -/
def defaultDayState : LocationDayState :=
  { highTemp := none
    hasAlertedDrop := false
    lastTemp := none
    sustainedHighCount := none
    lastHighAlertTemp := none
    history := [] }

/-- Alert events pushed by `processLocation` (tagged objects in JS). -/
inductive AlertEvent where
  | new_high (temp prevHigh : ℚ) (time date : String)
  | drop (temp high : ℚ) (time date : String)
  | sustained_high (temp : ℚ) (count : ℕ) (time date : String)
deriving Repr, DecidableEq

/-- JS truthiness coercion used at line 1461:
`if (!state.sustainedHighCount) state.sustainedHighCount = 1` — an absent
(`undefined`) field and the number 0 are both falsy and replaced by 1. -/
def jsTruthyCount : Option ℕ → ℕ
  | none => 1
  | some 0 => 1
  | some n => n

/-- The pure decision core of `processLocation` (weather.js lines
1400-1488), applied to the loaded state and the extracted current
temperature.  `inAttentionZone` stands for the value of
`isInCriticalWindow(location.timezone, location.id)` at the time of the
call.  Returns the state that is saved back plus the list of alerts
pushed (empty list when the JS code returns `null`). -/
def processReading (state : LocationDayState) (currentTemp : ℚ)
    (inAttentionZone : Bool) (localTime actualLocalDate : String) :
    LocationDayState × List AlertEvent :=
  match state.highTemp with
  | none =>
    -- First reading of the day: establish baseline silently (lines 1403-1412)
    ({ state with
        highTemp := some currentTemp
        lastTemp := some currentTemp
        hasAlertedDrop := false
        history := state.history ++ [(currentTemp, localTime)] }, [])
  | some high =>
    let branch : LocationDayState × List AlertEvent :=
      if high < currentTemp then
        -- New high (lines 1422-1440)
        ({ state with
            highTemp := some currentTemp
            hasAlertedDrop := false
            sustainedHighCount := some 1
            lastHighAlertTemp := some currentTemp },
         [AlertEvent.new_high currentTemp high localTime actualLocalDate])
      else if currentTemp < high ∧ state.hasAlertedDrop = false then
        -- First drop from high (lines 1442-1457)
        ({ state with hasAlertedDrop := true, sustainedHighCount := some 0 },
         [AlertEvent.drop currentTemp high localTime actualLocalDate])
      else if inAttentionZone = true ∧ currentTemp = high ∧
              state.hasAlertedDrop = false then
        -- Sustained high during attention zone (lines 1459-1478)
        let newCount := jsTruthyCount state.sustainedHighCount + 1
        ({ state with sustainedHighCount := some newCount },
         if 2 ≤ newCount then
           [AlertEvent.sustained_high currentTemp newCount localTime
              actualLocalDate]
         else [])
      else
        (state, [])
    -- Common tail (lines 1484-1486): lastTemp and history updated in all
    -- non-baseline branches before saving
    ({ branch.1 with
        lastTemp := some currentTemp
        history := branch.1.history ++ [(currentTemp, localTime)] },
     branch.2)

/-! ## Temperature extraction (weather.js lines 834-846 and 1278-1328) -/

/-- Numeric value of a decimal digit character, `none` otherwise. -/
def digitVal (c : Char) : Option ℕ :=
  if c.isDigit then some (c.toNat - 48) else none

/-- Whitespace as matched by the regex class in `parseTimeString`. -/
def isSpaceChar (c : Char) : Bool :=
  c = ' ' ∨ c = '\t' ∨ c = '\n' ∨ c = '\r'

/-- Drop leading whitespace (the greedy match of the regex). -/
def skipSpaces : List Char → List Char
  | [] => []
  | c :: cs => if isSpaceChar c then skipSpaces cs else c :: cs

/-- Match the `(AM|PM)` alternative, case-insensitively; `some true` means
PM was matched. -/
def matchPeriod : List Char → Option Bool
  | c1 :: c2 :: _ =>
    if (c1 = 'A' ∨ c1 = 'a') ∧ (c2 = 'M' ∨ c2 = 'm') then some false
    else if (c1 = 'P' ∨ c1 = 'p') ∧ (c2 = 'M' ∨ c2 = 'm') then some true
    else none
  | _ => none

/-- Given the characters after the hour digits and the parsed hour, match
the remainder of the pattern: a colon, exactly two minute digits, optional
whitespace, and AM/PM; then apply the 12-hour-to-24-hour adjustment of
`parseTimeString` (PM and hour ≠ 12 adds 12; AM and hour = 12 becomes 0). -/
def matchTimeTail (rest : List Char) (h : ℕ) : Option (ℕ × ℕ) :=
  match rest with
  | ':' :: d1 :: d2 :: rest2 =>
    match digitVal d1, digitVal d2 with
    | some a, some b =>
      match matchPeriod (skipSpaces rest2) with
      | some isPM =>
        let hours :=
          if isPM ∧ h ≠ 12 then h + 12
          else if isPM = false ∧ h = 12 then 0
          else h
        some (hours, a * 10 + b)
      | none => none
    | _, _ => none
  | _ => none

/-- Scan the string left to right for the first position where the pattern
`(\d{1,2}):(\d{2})\s*(AM|PM)` matches, trying the greedy two-digit hour
before the one-digit hour. -/
def scanTime : List Char → Option (ℕ × ℕ)
  | [] => none
  | c :: cs =>
    match digitVal c with
    | some d1 =>
      (match cs with
       | c2 :: cs2 =>
         (match digitVal c2 with
          | some d2 =>
            (match matchTimeTail cs2 (d1 * 10 + d2) with
             | some r => some r
             | none =>
               match matchTimeTail cs d1 with
               | some r => some r
               | none => scanTime cs)
          | none =>
            match matchTimeTail cs d1 with
            | some r => some r
            | none => scanTime cs)
       | [] => none)
    | none => scanTime cs

/-- `parseTimeString` (lines 834-846): extract (hours, minutes) in 24-hour
form from a string such as "2:30 PM"; `none` when the pattern is absent. -/
def parseTimeString (timeStr : String) : Option (ℕ × ℕ) :=
  scanTime timeStr.data

/-- One entry of the API's `hourly_data` array: `temperature_c` may be
absent and `time` may be absent (both checked before use). -/
structure HourlyEntry where
  temperature_c : Option ℚ
  time : Option String
deriving Repr, DecidableEq

/-- The payload object after the `apiResponse?.data || apiResponse` unwrap
at line 1280: the fields `extractCurrentTemp` and `extractDailyHigh` probe,
each `none` when the corresponding JS access is undefined / not a number. -/
structure WeatherData where
  currentTempCelsius : Option ℚ
  timestamp : Option String
  hourly_data : Option (List HourlyEntry)
  dailyMax : Option ℚ
  temperatureCelsius : Option ℚ
  temp : Option ℚ
deriving Repr, DecidableEq

/-- The scan at lines 1289-1303: walk `hourly_data` keeping the entry with
the strictly latest parsed time (minutes since midnight), skipping entries
without a usable `temperature_c`/`time` pair.  Returns that entry's
temperature. -/
def mostRecentHourlyTemp (entries : List HourlyEntry) : Option ℚ :=
  Option.map Prod.snd
    (entries.foldl
      (fun acc entry =>
        match entry.temperature_c, entry.time with
        | some t, some timeStr =>
          match parseTimeString timeStr with
          | some hm =>
            let entryTime := hm.1 * 60 + hm.2
            match acc with
            | none => some (entryTime, t)
            | some best =>
              if best.1 < entryTime then some (entryTime, t) else acc
          | none => acc
        | _, _ => acc)
      none)

/-- `extractCurrentTemp` (exported version, lines 1278-1328): computes the
most recent hourly entry, but returns `current.temperature.celsius`
whenever it is a number (both arms of the comparison at lines 1308-1317
return `currentTemp`); the hourly value, then `temperature.celsius`, then
`temp`, are fallbacks; `null` when all are absent. -/
def extractCurrentTemp (data : WeatherData) : Option ℚ :=
  let currentTemp := data.currentTempCelsius
  let mostRecentHourly :=
    match data.hourly_data with
    | some entries =>
      if 0 < entries.length then mostRecentHourlyTemp entries else none
    | none => none
  match currentTemp with
  | some c => some c
  | none =>
    match mostRecentHourly with
    | some h => some h
    | none =>
      match data.temperatureCelsius with
      | some v => some v
      | none =>
        match data.temp with
        | some v => some v
        | none => none

/-- Fold `processReading` over a day's sequence of readings; each element
carries the temperature, whether the poll fell inside the attention
window, and the local-time string of the poll. -/
def runReadings (state : LocationDayState) (date : String) :
    List (ℚ × Bool × String) → LocationDayState
  | [] => state
  | (r, z, t) :: rest =>
    runReadings (processReading state r z t date).1 date rest

/-! ## Persistence (state module, lines 1852-1899) -/

/-- The on-disk key-value store: one optional state row per
(locationId, date) key, mirroring the per-key JSON files. -/
def Store := String → String → Option LocationDayState

/-- `loadLocationState` (lines 1867-1886): the stored row when the file
exists, else the default fresh state for a new day. -/
def loadLocationState (store : Store) (locationId date : String) :
    LocationDayState :=
  match store locationId date with
  | some s => s
  | none => defaultDayState

/-- `saveLocationState` (lines 1891-1899): write the row for exactly this
(locationId, date) key, leaving every other key untouched. -/
def saveLocationState (store : Store) (locationId date : String)
    (s : LocationDayState) : Store :=
  fun l d => if l = locationId ∧ d = date then some s else store l d

/-! ## Weather data gateway (weather.js lines 1183-1272) -/

/-- Outcome of one HTTP GET against the weather API: a parsed payload, or
an error carrying the optional HTTP status, whether the error body's
details mention a future date (`responseData?.error?.details?.some(d =>
d.message?.includes('future'))`), and the error message. -/
inductive HttpOutcome where
  | ok (data : WeatherData)
  | err (status : Option ℕ) (futureDetail : Bool) (message : String)
deriving Repr, DecidableEq

/-- The record returned by `fetchWeatherData`. -/
structure FetchResult where
  success : Bool
  data : Option WeatherData
  localDate : String
  isFallback : Bool
  error : Option String
deriving Repr, DecidableEq

/-- `fetchWeatherData` (lines 1183-1272).  `net` maps a requested date to
the HTTP outcome for that request; `localDate` and `yesterdayDate` stand
for today and yesterday in the location's own timezone.  Besides the
result, returns the list of dates actually requested, in order.  The
yesterday retry happens exactly when the first request fails with HTTP
status 400 and a future-date detail; a failed retry falls through to the
ordinary failure return, which reports the original error message and
today's date. -/
def fetchWeatherData (net : String → HttpOutcome)
    (localDate yesterdayDate : String) : FetchResult × List String :=
  match net localDate with
  | HttpOutcome.ok d =>
    ({ success := true, data := some d, localDate := localDate,
       isFallback := false, error := none }, [localDate])
  | HttpOutcome.err status fut msg =>
    if status = some 400 ∧ fut = true then
      match net yesterdayDate with
      | HttpOutcome.ok d =>
        ({ success := true, data := some d, localDate := yesterdayDate,
           isFallback := true, error := none }, [localDate, yesterdayDate])
      | HttpOutcome.err _ _ _ =>
        ({ success := false, data := none, localDate := localDate,
           isFallback := false, error := some msg },
         [localDate, yesterdayDate])
    else
      ({ success := false, data := none, localDate := localDate,
         isFallback := false, error := some msg }, [localDate])

/-- `processLocation` (lines 1358-1489) given the fetch result: bail out on
fetch failure or when no temperature is extractable; otherwise load the
state under (location.id, actualLocalDate) — the current calendar date in
the location's own timezone, computed at line 1375 independently of the
fetch result's (possibly fallback) date — run the decision core, save
under the same key, and return the alerts (`null`, here `none`, when the
list is empty). -/
def processLocation (store : Store) (locationId : String)
    (result : FetchResult) (actualLocalDate localTime : String)
    (inAttentionZone : Bool) : Store × Option (List AlertEvent) :=
  if result.success = false then (store, none)
  else
    match result.data with
    | none => (store, none)
    | some payload =>
      match extractCurrentTemp payload with
      | none => (store, none)
      | some currentTemp =>
        let state := loadLocationState store locationId actualLocalDate
        let stepped := processReading state currentTemp inAttentionZone
          localTime actualLocalDate
        let store2 := saveLocationState store locationId actualLocalDate
          stepped.1
        (store2, if 0 < stepped.2.length then some stepped.2 else none)

/-! ## Attention zone calculator (weather.js lines 988-1065) -/

/-- A per-location attention window, as stored in `attentionZones`. -/
structure AttentionZone where
  startHour : ℤ
  startMin : ℕ
  endHour : ℤ
  endMin : ℕ
deriving Repr, DecidableEq

/-- JS `Math.round`: round half toward positive infinity. -/
def jsRound (q : ℚ) : ℤ := Int.floor (q + 1 / 2)

/-- The computation core of `calculateAttentionZone` (lines 1036-1064),
applied to the historical peak hours and sustained counts gathered from
the analysis endpoint or the per-day fallback fetches.  With no usable
days it returns the default 1PM-4PM window and a sustained-count default
of 4; otherwise the window `[max 0 (avgHour-1), min 23 (avgHour+2)]`
around the rounded mean peak hour, and the rounded mean sustained count.
Returns (zone, avgSustainedCount). -/
def calculateAttentionZone (highTimes sustainedCounts : List ℕ) :
    AttentionZone × ℤ :=
  if highTimes.length = 0 then
    ({ startHour := 13, startMin := 0, endHour := 16, endMin := 0 }, 4)
  else
    let total : ℕ := highTimes.foldl (fun a b => a + b) 0
    let avgHour : ℤ := jsRound ((total : ℚ) / (highTimes.length : ℚ))
    let avgSustained : ℤ :=
      if 0 < sustainedCounts.length then
        jsRound
          (((sustainedCounts.foldl (fun a b => a + b) 0 : ℕ) : ℚ) /
            (sustainedCounts.length : ℚ))
      else 4
    ({ startHour := max 0 (avgHour - 1), startMin := 0,
       endHour := min 23 (avgHour + 2), endMin := 0 }, avgSustained)

/-! ## Helper lemmas -/

/-- A stored positive sustained count is already truthy, so the JS
default-to-1 step leaves it unchanged. -/
theorem jsTruthyCount_pos (n : ℕ) (hn : 1 ≤ n) :
    jsTruthyCount (some n) = n := by
  cases n with
  | zero => omega
  | succ m => rfl

/-- One step of the state machine sends a tracked high `h` to `max h r`:
the new-high branch replaces it by a strictly larger reading, every other
branch leaves it unchanged. -/
theorem processReading_highTemp (state : LocationDayState) (high r : ℚ)
    (z : Bool) (time date : String) (hhigh : state.highTemp = some high) :
    (processReading state r z time date).1.highTemp = some (max high r) := by
  by_cases h : high < r
  · simp [processReading, hhigh, h, max_eq_right h.le]
  · have hmax : max high r = high := max_eq_left (not_lt.mp h)
    rw [hmax]
    simp only [processReading, hhigh]
    split_ifs <;> simp [hhigh]

/-- Folding a day's readings over a state with tracked high `high` yields
the running maximum of `high` and all reading values. -/
theorem runReadings_highTemp (l : List (ℚ × Bool × String)) :
    ∀ (state : LocationDayState) (high : ℚ) (date : String),
      state.highTemp = some high →
      (runReadings state date l).highTemp =
        some (l.foldl (fun a x => max a x.1) high) := by
  induction l with
  | nil =>
    intro state high date h
    simpa [runReadings] using h
  | cons x xs ih =>
    intro state high date h
    obtain ⟨r, z, t⟩ := x
    simp only [runReadings, List.foldl_cons]
    exact ih _ _ _ (processReading_highTemp state high r z t date h)

/-- A fold of `max` over reading values never goes below its seed. -/
theorem le_foldl_max (l : List (ℚ × Bool × String)) :
    ∀ a : ℚ, a ≤ l.foldl (fun x y => max x y.1) a := by
  induction l with
  | nil => intro a; simp
  | cons x xs ih =>
    intro a
    simpa using le_trans (le_max_left a x.1) (ih (max a x.1))

/-! ## Claim theorems -/

/-- Claim C2: a reading strictly above the tracked high emits exactly one
`new_high` event carrying the previous high and the reading, and the saved
state has `highTemp = r`, `hasAlertedDrop = false`,
`sustainedHighCount = 1`, with `lastTemp` and `history` updated. -/
theorem c2_new_high_transition (state : LocationDayState) (high r : ℚ)
    (z : Bool) (time date : String)
    (hhigh : state.highTemp = some high) (hlt : high < r) :
    (processReading state r z time date).2 =
      [AlertEvent.new_high r high time date] ∧
    (processReading state r z time date).1.highTemp = some r ∧
    (processReading state r z time date).1.hasAlertedDrop = false ∧
    (processReading state r z time date).1.sustainedHighCount = some 1 ∧
    (processReading state r z time date).1.lastTemp = some r ∧
    (processReading state r z time date).1.history =
      state.history ++ [(r, time)] := by
  simp [processReading, hhigh, hlt]

/-- Claim C2 witness: high 20, reading 22 gives exactly
`new_high 22 20` and the reset fields. -/
theorem c2_new_high_transition_witness :
    (processReading { defaultDayState with highTemp := some 20 } 22 false
      "t" "d").2 = [AlertEvent.new_high 22 20 "t" "d"] ∧
    (processReading { defaultDayState with highTemp := some 20 } 22 false
      "t" "d").1.hasAlertedDrop = false ∧
    (processReading { defaultDayState with highTemp := some 20 } 22 false
      "t" "d").1.sustainedHighCount = some 1 := by
  have h := c2_new_high_transition
    { defaultDayState with highTemp := some 20 } 20 22 false "t" "d"
    rfl (by norm_num)
  exact ⟨h.1, h.2.2.1, h.2.2.2.1⟩

/-- Claim C3: a reading strictly below the tracked high emits exactly one
`drop` event when the drop has not been alerted yet, setting
`hasAlertedDrop = true` and `sustainedHighCount = 0`; while
`hasAlertedDrop` is true a below-high reading emits nothing and leaves the
flag and the high in place (so no further event until a new high). -/
theorem c3_drop_once (state : LocationDayState) (high r : ℚ)
    (z : Bool) (time date : String)
    (hhigh : state.highTemp = some high) (hlt : r < high) :
    (state.hasAlertedDrop = false →
      (processReading state r z time date).2 =
        [AlertEvent.drop r high time date] ∧
      (processReading state r z time date).1.hasAlertedDrop = true ∧
      (processReading state r z time date).1.sustainedHighCount = some 0 ∧
      (processReading state r z time date).1.highTemp = some high) ∧
    (state.hasAlertedDrop = true →
      (processReading state r z time date).2 = [] ∧
      (processReading state r z time date).1.hasAlertedDrop = true ∧
      (processReading state r z time date).1.highTemp = some high) := by
  constructor
  · intro hd
    simp [processReading, hhigh, hd, hlt, not_lt.mpr hlt.le]
  · intro hd
    simp [processReading, hhigh, hd, hlt, not_lt.mpr hlt.le, hlt.ne]

/-- Claim C3 witness: high 22 with drop not yet alerted, reading 21 gives
exactly `drop 21 22`; with the flag already set, reading 20 gives no
event. -/
theorem c3_drop_once_witness :
    (processReading { defaultDayState with highTemp := some 22 } 21 false
      "t" "d").2 = [AlertEvent.drop 21 22 "t" "d"] ∧
    (processReading { defaultDayState with highTemp := some 22, hasAlertedDrop := true } 20 false "t" "d").2 = [] := by
  constructor
  · exact ((c3_drop_once { defaultDayState with highTemp := some 22 } 22 21
      false "t" "d" rfl (by norm_num)).1 rfl).1
  · exact ((c3_drop_once
      { defaultDayState with highTemp := some 22, hasAlertedDrop := true }
      22 20 false "t" "d" rfl (by norm_num)).2 rfl).1

/-- Claim C4: inside the attention window, a reading equal to the tracked
high with the drop not alerted and a stored positive count `n` increments
the count to `n + 1` and emits `sustained_high` exactly when the
incremented count reaches 2 — which it always does, so after a new high
(count 1) the first tie already emits at count 2, never at count 1. -/
theorem c4_sustained_emission (state : LocationDayState) (high : ℚ) (n : ℕ)
    (time date : String)
    (hhigh : state.highTemp = some high)
    (hdrop : state.hasAlertedDrop = false)
    (hcount : state.sustainedHighCount = some n) (hn : 1 ≤ n) :
    (processReading state high true time date).1.sustainedHighCount =
      some (n + 1) ∧
    (processReading state high true time date).2 =
      (if 2 ≤ n + 1 then
        [AlertEvent.sustained_high high (n + 1) time date]
       else []) ∧
    (processReading state high true time date).2 =
      [AlertEvent.sustained_high high (n + 1) time date] ∧
    2 ≤ n + 1 := by
  have ht : jsTruthyCount state.sustainedHighCount = n := by
    rw [hcount]; exact jsTruthyCount_pos n hn
  have h2 : 2 ≤ n + 1 := by omega
  simp [processReading, hhigh, hdrop, ht, h2]

/-- Claim C4 witness: high 22, count 1 (just after a new high), a tie at
22 inside the window emits `sustained_high` with count 2. -/
theorem c4_sustained_emission_witness :
    (processReading { defaultDayState with highTemp := some 22, sustainedHighCount := some 1 } 22 true "t" "d").2 =
      [AlertEvent.sustained_high 22 2 "t" "d"] := by
  exact (c4_sustained_emission
    { defaultDayState with highTemp := some 22, sustainedHighCount := some 1 }
    22 1 "t" "d" rfl rfl rfl (by norm_num)).2.2.1

/-- Claim C7: the first reading of a (location, day) key — loaded state
with `highTemp` null — produces no alert (`none` returned), and the state
persisted under that key has `highTemp = lastTemp =` the reading,
`hasAlertedDrop = false`, and the reading appended to `history`. -/
theorem c7_baseline_silent (store : Store) (locationId : String)
    (result : FetchResult) (date time : String) (z : Bool)
    (payload : WeatherData) (t : ℚ)
    (hs : result.success = true) (hd : result.data = some payload)
    (ht : extractCurrentTemp payload = some t)
    (hfresh : (loadLocationState store locationId date).highTemp = none) :
    (processLocation store locationId result date time z).2 = none ∧
    ((processLocation store locationId result date time z).1 locationId
        date).isSome = true ∧
    (∀ s, (processLocation store locationId result date time z).1 locationId
        date = some s →
      s.highTemp = some t ∧ s.lastTemp = some t ∧
      s.hasAlertedDrop = false ∧
      s.history =
        (loadLocationState store locationId date).history ++ [(t, time)]) := by
  have hproc :
      processReading (loadLocationState store locationId date) t z time
        date =
      ({ loadLocationState store locationId date with
          highTemp := some t
          lastTemp := some t
          hasAlertedDrop := false
          history := (loadLocationState store locationId date).history ++
            [(t, time)] }, []) := by
    simp [processReading, hfresh]
  refine ⟨?_, ?_, ?_⟩
  · simp [processLocation, hs, hd, ht, hproc]
  · simp [processLocation, hs, hd, ht, hproc, saveLocationState]
  · intro s hsave
    simp [processLocation, hs, hd, ht, hproc, saveLocationState] at hsave
    simp [← hsave]

/-- Claim C7 witness: an empty store, a successful fetch whose payload
yields temperature 20, produces no alert and persists a baseline row. -/
theorem c7_baseline_silent_witness :
    (processLocation (fun _ _ => none) "atlanta"
      { success := true, data := some { currentTempCelsius := some 20, timestamp := none, hourly_data := none, dailyMax := none, temperatureCelsius := none, temp := none }, localDate := "2025-01-01", isFallback := false, error := none }
      "2025-01-01" "9:00 AM" false).2 = none := by
  exact (c7_baseline_silent (fun _ _ => none) "atlanta"
    { success := true, data := some { currentTempCelsius := some 20, timestamp := none, hourly_data := none, dailyMax := none, temperatureCelsius := none, temp := none }, localDate := "2025-01-01", isFallback := false, error := none }
    "2025-01-01" "9:00 AM" false
    { currentTempCelsius := some 20, timestamp := none, hourly_data := none, dailyMax := none, temperatureCelsius := none, temp := none }
    20 rfl rfl rfl rfl).1

/-- Claim C10: the baseline branch never touches `sustainedHighCount` (a
fresh row keeps it absent), and in the attention-window tie branch an
absent count is treated as 1 before the increment, so the very first tie
with the baseline high — with no intervening new-high alert — already
emits `sustained_high` with count 2; in particular a baseline reading
followed directly by an equal in-window reading emits exactly that. -/
theorem c10_missing_count_jumps_to_two :
    (∀ (state : LocationDayState) (r : ℚ) (z : Bool) (time date : String),
      state.highTemp = none →
      (processReading state r z time date).1.sustainedHighCount =
        state.sustainedHighCount) ∧
    (∀ (state : LocationDayState) (r : ℚ) (time date : String),
      state.highTemp = some r → state.hasAlertedDrop = false →
      state.sustainedHighCount = none →
      (processReading state r true time date).2 =
        [AlertEvent.sustained_high r 2 time date] ∧
      (processReading state r true time date).1.sustainedHighCount =
        some 2) ∧
    (∀ (r : ℚ) (z0 : Bool) (t0 t1 date : String),
      (processReading (processReading defaultDayState r z0 t0 date).1 r true
        t1 date).2 = [AlertEvent.sustained_high r 2 t1 date]) := by
  refine ⟨?_, ?_, ?_⟩
  · intro state r z time date hhigh
    simp [processReading, hhigh]
  · intro state r time date hhigh hdrop hcount
    simp [processReading, hhigh, hdrop, hcount, jsTruthyCount]
  · intro r z0 t0 t1 date
    simp [processReading, defaultDayState, jsTruthyCount]

/-- Claim C10 witness: baseline at 22, then an in-window tie at 22, emits
`sustained_high` with count 2 on the very first tie. -/
theorem c10_missing_count_jumps_to_two_witness :
    (processReading (processReading defaultDayState 22 false "t0" "d").1 22
      true "t1" "d").2 = [AlertEvent.sustained_high 22 2 "t1" "d"] := by
  exact c10_missing_count_jumps_to_two.2.2 22 false "t0" "t1" "d"

/-- Claim C1: starting from the empty state, after a day's sequence of
readings the tracked `highTemp` equals the running maximum of every
reading since the baseline; and from any state with a tracked high,
further readings never decrease it — so across the sequence the persisted
high is non-decreasing. -/
theorem c1_highTemp_is_running_max :
    (∀ (r0 : ℚ) (z0 : Bool) (t0 : String)
        (rest : List (ℚ × Bool × String)) (date : String),
      (runReadings defaultDayState date ((r0, z0, t0) :: rest)).highTemp =
        some (rest.foldl (fun a x => max a x.1) r0)) ∧
    (∀ (state : LocationDayState) (high : ℚ) (date : String)
        (l : List (ℚ × Bool × String)),
      state.highTemp = some high →
      ∃ h2, (runReadings state date l).highTemp = some h2 ∧ high ≤ h2) := by
  constructor
  · intro r0 z0 t0 rest date
    have hbase :
        (processReading defaultDayState r0 z0 t0 date).1.highTemp =
          some r0 := by
      simp [processReading, defaultDayState]
    simpa [runReadings] using
      runReadings_highTemp rest
        (processReading defaultDayState r0 z0 t0 date).1 r0 date hbase
  · intro state high date l hhigh
    refine ⟨l.foldl (fun a x => max a x.1) high, ?_, ?_⟩
    · exact runReadings_highTemp l state high date hhigh
    · exact le_foldl_max l high

/-- Claim C1 witness: the sequence 20, 22, 21 ends with tracked high 22,
and from a tracked high of 22 the final high is at least 22. -/
theorem c1_highTemp_is_running_max_witness :
    (runReadings defaultDayState "d"
      [(20, false, "a"), (22, false, "b"), (21, false, "c")]).highTemp =
      some 22 := by
  rw [c1_highTemp_is_running_max.1 20 false "a"
    [(22, false, "b"), (21, false, "c")] "d"]
  decide

/-- Claim C6: a successful poll with an extractable temperature loads and
saves the state row under the key (locationId, actualLocalDate) — the
current calendar date in the location's own timezone — leaving every other
key untouched; the outcome is identical whatever the fetch result's own
date or fallback flag are (so a yesterday-fallback fetch still uses
today's key); and when the store has no row yet under that key (as after
crossing local midnight) the state processed is the fresh empty one. -/
theorem c6_keyed_by_local_date (store : Store) (locationId : String)
    (result : FetchResult) (actualLocalDate localTime : String) (z : Bool)
    (payload : WeatherData) (t : ℚ)
    (hs : result.success = true) (hd : result.data = some payload)
    (ht : extractCurrentTemp payload = some t) :
    ((processLocation store locationId result actualLocalDate localTime
        z).1 locationId actualLocalDate =
      some (processReading
        (loadLocationState store locationId actualLocalDate) t z localTime
        actualLocalDate).1) ∧
    (∀ l d, ¬(l = locationId ∧ d = actualLocalDate) →
      (processLocation store locationId result actualLocalDate localTime
        z).1 l d = store l d) ∧
    (∀ (d2 : String) (fb : Bool),
      processLocation store locationId
        { result with localDate := d2, isFallback := fb }
        actualLocalDate localTime z =
      processLocation store locationId result actualLocalDate localTime
        z) ∧
    (store locationId actualLocalDate = none →
      loadLocationState store locationId actualLocalDate =
        defaultDayState) := by
  refine ⟨?_, ?_, ?_, ?_⟩
  · simp [processLocation, hs, hd, ht, saveLocationState]
  · intro l d hne
    simp [processLocation, hs, hd, ht, saveLocationState, hne]
  · intro d2 fb
    simp [processLocation, hs, hd, ht]
  · intro hnone
    simp [loadLocationState, hnone]

/-- Claim C6 witness: with an empty store and a fallback-marked fetch
result carrying yesterday's date, the row is saved under today's key and
the fallback flag changes nothing. -/
theorem c6_keyed_by_local_date_witness :
    ((processLocation (fun _ _ => none) "seoul"
      { success := true, data := some { currentTempCelsius := some 5, timestamp := none, hourly_data := none, dailyMax := none, temperatureCelsius := none, temp := none }, localDate := "2025-01-01", isFallback := true, error := none }
      "2025-01-02" "0:10 AM" false).1 "seoul" "2025-01-02").isSome =
      true := by
  have h := c6_keyed_by_local_date (fun _ _ => none) "seoul"
    { success := true, data := some { currentTempCelsius := some 5, timestamp := none, hourly_data := none, dailyMax := none, temperatureCelsius := none, temp := none }, localDate := "2025-01-01", isFallback := true, error := none }
    "2025-01-02" "0:10 AM" false
    { currentTempCelsius := some 5, timestamp := none, hourly_data := none, dailyMax := none, temperatureCelsius := none, temp := none }
    5 rfl rfl rfl
  rw [h.1]
  rfl

/-- Claim C8: with a non-empty list of usable historical peak hours, the
zone is `[max 0 (avgHour - 1), min 23 (avgHour + 2)]` where `avgHour` is
the mean of the peak hours rounded JS-style to the nearest integer; the
sample peak hours [13,14,13,15,14,13,14] give avgHour 14 and window
[13, 16]. -/
theorem c8_attention_zone_window :
    (∀ highTimes sustainedCounts : List ℕ, highTimes ≠ [] →
      (calculateAttentionZone highTimes sustainedCounts).1 =
        { startHour :=
            max 0 (jsRound (((highTimes.foldl (fun a b => a + b) 0 : ℕ) :
              ℚ) / (highTimes.length : ℚ)) - 1)
          startMin := 0
          endHour :=
            min 23 (jsRound (((highTimes.foldl (fun a b => a + b) 0 : ℕ) :
              ℚ) / (highTimes.length : ℚ)) + 2)
          endMin := 0 }) ∧
    jsRound (((96 : ℕ) : ℚ) / 7) = 14 ∧
    (calculateAttentionZone [13, 14, 13, 15, 14, 13, 14] []).1 =
      { startHour := 13, startMin := 0, endHour := 16, endMin := 0 } := by
  refine ⟨?_, ?_, ?_⟩
  · intro highTimes sustainedCounts hne
    have hlen : ¬highTimes.length = 0 := by
      simpa [List.length_eq_zero] using hne
    simp [calculateAttentionZone, hlen]
  · rw [jsRound]
    norm_num
  · norm_num [calculateAttentionZone, jsRound]

/-- Claim C8 witness: the universal window formula applied to the sample
peak hours [13,14,13,15,14,13,14]. -/
theorem c8_attention_zone_window_witness :
    (calculateAttentionZone [13, 14, 13, 15, 14, 13, 14] [3, 4]).1 =
      { startHour := 13, startMin := 0, endHour := 16, endMin := 0 } := by
  rw [c8_attention_zone_window.1 [13, 14, 13, 15, 14, 13, 14] [3, 4]
    (by decide)]
  norm_num [jsRound]

/-- Claim C9: a successful first request returns success with no fallback
and exactly one request; a first request failing with HTTP 400 and a
future-date detail triggers exactly one retry at yesterday's date, which
on success is returned with `isFallback = true` and yesterday's date, and
on failure yields a non-success result (carrying the original error, with
no further request); any other failure yields a non-success result after
the single original request. -/
theorem c9_future_date_retry (net : String → HttpOutcome)
    (localDate yesterdayDate : String) :
    (∀ d, net localDate = HttpOutcome.ok d →
      fetchWeatherData net localDate yesterdayDate =
        ({ success := true, data := some d, localDate := localDate,
           isFallback := false, error := none }, [localDate])) ∧
    (∀ msg, net localDate = HttpOutcome.err (some 400) true msg →
      (∀ d, net yesterdayDate = HttpOutcome.ok d →
        fetchWeatherData net localDate yesterdayDate =
          ({ success := true, data := some d, localDate := yesterdayDate,
             isFallback := true, error := none },
           [localDate, yesterdayDate])) ∧
      (∀ st fut msg2, net yesterdayDate = HttpOutcome.err st fut msg2 →
        fetchWeatherData net localDate yesterdayDate =
          ({ success := false, data := none, localDate := localDate,
             isFallback := false, error := some msg },
           [localDate, yesterdayDate]))) ∧
    (∀ st fut msg, net localDate = HttpOutcome.err st fut msg →
      ¬(st = some 400 ∧ fut = true) →
      fetchWeatherData net localDate yesterdayDate =
        ({ success := false, data := none, localDate := localDate,
           isFallback := false, error := some msg }, [localDate])) := by
  refine ⟨?_, ?_, ?_⟩
  · intro d hok
    simp [fetchWeatherData, hok]
  · intro msg herr
    constructor
    · intro d hok
      simp [fetchWeatherData, herr, hok]
    · intro st fut msg2 herr2
      simp [fetchWeatherData, herr, herr2]
  · intro st fut msg herr hcond
    simp [fetchWeatherData, herr, hcond]

/-- Claim C9 witness: a network whose today request fails with a 400
future-date error and whose yesterday request succeeds yields a fallback
success after exactly the two requests. -/
theorem c9_future_date_retry_witness :
    fetchWeatherData
      (fun d => if d = "2025-01-02" then HttpOutcome.err (some 400) true "future" else HttpOutcome.ok { currentTempCelsius := some 5, timestamp := none, hourly_data := none, dailyMax := none, temperatureCelsius := none, temp := none })
      "2025-01-02" "2025-01-01" =
      ({ success := true, data := some { currentTempCelsius := some 5, timestamp := none, hourly_data := none, dailyMax := none, temperatureCelsius := none, temp := none }, localDate := "2025-01-01", isFallback := true, error := none },
       ["2025-01-02", "2025-01-01"]) := by
  exact ((c9_future_date_retry
    (fun d => if d = "2025-01-02" then HttpOutcome.err (some 400) true "future" else HttpOutcome.ok { currentTempCelsius := some 5, timestamp := none, hourly_data := none, dailyMax := none, temperatureCelsius := none, temp := none })
    "2025-01-02" "2025-01-01").2.1 "future" (by simp)).1
    { currentTempCelsius := some 5, timestamp := none, hourly_data := none, dailyMax := none, temperatureCelsius := none, temp := none }
    (by simp)

/-- Claim C5 counterexample: a payload carrying both a non-empty hourly
series whose most recent entry (by parsed time) is 30 at 2:00 PM and a
current-temperature field of 20; `extractCurrentTemp` returns the current
field, 20, not the hourly value 30 the claim requires. -/
theorem c5_counterexample :
    extractCurrentTemp { currentTempCelsius := some 20, timestamp := some "ts", hourly_data := some [{ temperature_c := some 28, time := some "1:00 PM" }, { temperature_c := some 30, time := some "2:00 PM" }], dailyMax := none, temperatureCelsius := none, temp := none } = some 20 ∧
    mostRecentHourlyTemp [{ temperature_c := some 28, time := some "1:00 PM" }, { temperature_c := some 30, time := some "2:00 PM" }] = some 30 ∧
    (20 : ℚ) ≠ 30 := by
  refine ⟨rfl, rfl, by norm_num⟩

/-- Claim C5 (amended): the value extracted and used downstream is the
separately reported current field whenever it is a number — even when a
non-empty hourly series is present; only with no numeric current field
does it fall back to the hourly entry with the latest parsed time, then to
`temperature.celsius`, then to `temp`, and it is null only when all of
these are absent. -/
theorem c5_amended_extraction_chain (data : WeatherData) :
    (∀ c, data.currentTempCelsius = some c →
      extractCurrentTemp data = some c) ∧
    (data.currentTempCelsius = none →
      ∀ entries h, data.hourly_data = some entries →
        mostRecentHourlyTemp entries = some h →
        extractCurrentTemp data = some h) ∧
    (data.currentTempCelsius = none →
      (∀ entries, data.hourly_data = some entries →
        mostRecentHourlyTemp entries = none) →
      ∀ v, data.temperatureCelsius = some v →
        extractCurrentTemp data = some v) ∧
    (data.currentTempCelsius = none →
      (∀ entries, data.hourly_data = some entries →
        mostRecentHourlyTemp entries = none) →
      data.temperatureCelsius = none →
      extractCurrentTemp data = data.temp) := by
  refine ⟨?_, ?_, ?_, ?_⟩
  · intro c hc
    simp [extractCurrentTemp, hc]
  · intro hc entries h hhd hmr
    have hne : 0 < entries.length := by
      cases entries with
      | nil => simp [mostRecentHourlyTemp] at hmr
      | cons e es => simp
    simp [extractCurrentTemp, hc, hhd, hne, hmr]
  · intro hc hh v hv
    rcases hhd : data.hourly_data with _ | entries
    · simp [extractCurrentTemp, hc, hhd, hv]
    · have hmr := hh entries hhd
      simp [extractCurrentTemp, hc, hhd, hmr, hv]
  · intro hc hh hv
    rcases hhd : data.hourly_data with _ | entries
    · cases hdt : data.temp <;>
        simp [extractCurrentTemp, hc, hhd, hv, hdt]
    · have hmr := hh entries hhd
      cases hdt : data.temp <;>
        simp [extractCurrentTemp, hc, hhd, hmr, hv, hdt]

/-- Claim C5 (amended) witness: with no current field, the hourly entry
with the latest parsed time (30 at 2:00 PM) is returned. -/
theorem c5_amended_extraction_chain_witness :
    extractCurrentTemp { currentTempCelsius := none, timestamp := none, hourly_data := some [{ temperature_c := some 28, time := some "1:00 PM" }, { temperature_c := some 30, time := some "2:00 PM" }], dailyMax := none, temperatureCelsius := none, temp := none } = some 30 := by
  exact (c5_amended_extraction_chain
    { currentTempCelsius := none, timestamp := none, hourly_data := some [{ temperature_c := some 28, time := some "1:00 PM" }, { temperature_c := some 30, time := some "2:00 PM" }], dailyMax := none, temperatureCelsius := none, temp := none }).2.1
    rfl
    [{ temperature_c := some 28, time := some "1:00 PM" }, { temperature_c := some 30, time := some "2:00 PM" }]
    30 rfl rfl

end WeatherVolatility
